import Mathlib

/-!
# Gecode: value selection and commit, set relation posting

Shallow embedding of

* `gecode/kernel/brancher-val-sel-commit.hpp` (`ValSelCommitBase`, `ValSelCommit`),
* `gecode/set/rel-op.cpp` (the two `rel` overloads over arrays of set variables),
* `gecode/minimodel/bool-expr.hpp` (the operators on Boolean expressions and `post`).

Member functions are embedded in state-passing style: a member function called on an
object in a space yields its return value together with the object and the space as they
are after the call.  A `const` reference or a `const` member is returned as it was given.
-/

namespace Gecode

/-! ## Spaces -/

/-- The propagator classes of `Gecode::Set::RelOp` that `rel` posts. -/
inductive PropKindSet
  | UnionN
  | PartitionN
  | IntersectionN
  deriving DecidableEq, Repr

/-- A posted propagator: its class, the views it was posted on, the constant set of the
`IntSet` overload (if any) and the result view. -/
structure Propagator where
  kind : PropKindSet
  xs : List Nat
  z : Option (List Int)
  y : Nat
  deriving DecidableEq, Repr

/-- Modelled from the spec: the class `Space` is not among the sources.  §2 and §3: a space
"owns all Variable Implementations and Propagators for one node of the search tree", has
"a single failed/not-failed status bit" and a "global allocation arena".  Integer variable
implementations are kept as their domains, the arena as the list of the sizes of the
blocks handed out so far. -/
structure Space where
  failed : Bool
  vars : List (Finset Int)
  props : List Propagator
  arena : List Nat
  deriving DecidableEq

/-- Modelled from the spec: `Space::ralloc(size_t)` is not among the sources.  §4.1: "all
kernel-owned objects are allocated from the Space's own arena".  The block handed out is
named by its position in the arena. -/
def Space.ralloc (home : Space) (s : Nat) : Nat × Space :=
  (home.arena.length, { home with arena := home.arena ++ [s] })

/-- Modelled from the spec: `Space::failed()`, the status bit of §2. -/
def Space.isFailed (home : Space) : Bool := home.failed

/-- Modelled from the spec: `Space::fail()`, §4.1: "sets failed-flag". -/
def Space.fail (home : Space) : Space := { home with failed := true }

/-- Modelled from the spec: `Space::clone()`, §4.1: "produces a new Space with an
independent arena; every live Variable Implementation and Propagator is duplicated". -/
def Space.clone (home : Space) : Space := home

/-! ## `kernel/brancher-val-sel-commit.hpp` -/

/-- Outcome of calling a member function: the value returned, the object the member was
called on and the space, both as they are after the call. -/
structure Call (α Self Sp : Type) where
  ret : α
  self : Self
  home : Sp

/-- Outcome of a cloning constructor `T(home, shared, t)`, which gets the space and the
object `t` it copies by non-`const` reference: the new object, the object copied from
and the space, the last two as they are after the construction. -/
structure Cloned (T Sp : Type) where
  fresh : T
  orig : T
  home : Sp

/-- The value selection class `ValSel`, a template parameter of `ValSelCommit` whose
declaration is not among the sources: the members that `ValSelCommit` calls, typed by the
way it calls them.  An object or a space that a member gets by non-`const` reference is
returned as the member leaves it; `val` is a non-`const` member that gets the space as
`const Space&`; `notice` is called on a `const` object. -/
structure ValSel (Sp View Val S : Type) where
  /-- The member `s.val(home,x)`, with `home` a `const Space&`: the value and the
  selection object after the call. -/
  val : S → Sp → View → Val × S
  /-- The cloning constructor `s(home,shared,vsc.s)`. -/
  clone : Sp → Bool → S → Cloned S Sp
  /-- The member `s.notice()`. -/
  notice : S → Bool
  /-- The member `s.dispose(home)`. -/
  dispose : S → Sp → S × Sp

/-- The commit class `ValCommit`, a template parameter of `ValSelCommit` whose declaration is
not among the sources: the members that `ValSelCommit` calls, typed by the way it calls
them.  An object or a space that a member gets by non-`const` reference is returned as
the member leaves it; `notice` is called on a `const` object. -/
structure ValCommit (Sp View Val ME C : Type) where
  /-- The member `c.commit(home,a,x,n)`. -/
  commit : C → Sp → Nat → View → Val → ME × C × Sp
  /-- The cloning constructor `c(home,shared,vsc.c)`. -/
  clone : Sp → Bool → C → Cloned C Sp
  /-- The member `c.notice()`. -/
  notice : C → Bool
  /-- The member `c.dispose(home)`. -/
  dispose : C → Sp → C × Sp

/-- Class `ValSelCommit<ValSel,ValCommit>`: the value selection object `s` and the commit
object `c`. -/
structure ValSelCommit (S C : Type) where
  s : S
  c : C
  deriving DecidableEq

/-- The function `ValSelCommitBase::operator new(size_t s, Space& home)`:
`return home.ralloc(s);` with `ralloc` the allocator of the space. -/
def ValSelCommitBase.operatorNew {Sp Ptr : Type} (ralloc : Sp → Nat → Ptr × Sp)
    (s : Nat) (home : Sp) : Ptr × Sp :=
  ralloc home s

section ValSelCommitMembers

variable {Sp View Val ME S C Ptr : Type}

/-- The non-`const` member `ValSelCommit::val(const Space& home, View x)`:
`return s.val(home,x);`. -/
def ValSelCommit.val (sel : ValSel Sp View Val S) (self : ValSelCommit S C)
    (home : Sp) (x : View) : Call Val (ValSelCommit S C) Sp :=
  let r := sel.val self.s home x
  { ret := r.1, self := { self with s := r.2 }, home := home }

/-- The member `ValSelCommit::commit(Space& home, unsigned int a, View x, Val n)`:
`return c.commit(home,a,x,n);`. -/
def ValSelCommit.commit (com : ValCommit Sp View Val ME C) (self : ValSelCommit S C)
    (home : Sp) (a : Nat) (x : View) (n : Val) : Call ME (ValSelCommit S C) Sp :=
  let r := com.commit self.c home a x n
  { ret := r.1, self := { self with c := r.2.1 }, home := r.2.2 }

/-- The constructor for cloning `ValSelCommit(Space& home, bool shared, ValSelCommit& vsc)`:
the (empty) base constructor, then `s(home,shared,vsc.s)`, then `c(home,shared,vsc.c)`;
`vsc` is a non-`const` reference. -/
def ValSelCommit.cloning (sel : ValSel Sp View Val S) (com : ValCommit Sp View Val ME C)
    (home : Sp) (shared : Bool) (vsc : ValSelCommit S C) : Cloned (ValSelCommit S C) Sp :=
  let rs := sel.clone home shared vsc.s
  let rc := com.clone rs.home shared vsc.c
  { fresh := { s := rs.fresh, c := rc.fresh }, orig := { s := rs.orig, c := rc.orig },
    home := rc.home }

/-- The member `ValSelCommit::copy(Space& home, bool shared)`:
`return new (home) ValSelCommit<ValSel,ValCommit>(home,shared,*this);`.  `size` is
`sizeof(ValSelCommit<ValSel,ValCommit>)`; the value returned is the block allocated for
the new object together with the object constructed in it. -/
def ValSelCommit.copy (ralloc : Sp → Nat → Ptr × Sp) (size : Nat)
    (sel : ValSel Sp View Val S) (com : ValCommit Sp View Val ME C)
    (self : ValSelCommit S C) (home : Sp) (shared : Bool) :
    Call (Ptr × ValSelCommit S C) (ValSelCommit S C) Sp :=
  let p := ValSelCommitBase.operatorNew ralloc size home
  let r := ValSelCommit.cloning sel com p.2 shared self
  { ret := (p.1, r.fresh), self := r.orig, home := r.home }

/-- The member `ValSelCommit::notice(void) const`: `return s.notice() || c.notice();`. -/
def ValSelCommit.notice (sel : ValSel Sp View Val S) (com : ValCommit Sp View Val ME C)
    (self : ValSelCommit S C) : Call Bool (ValSelCommit S C) Unit :=
  { ret := sel.notice self.s || com.notice self.c, self := self, home := () }

/-- The member `ValSelCommit::dispose(Space& home)`: `s.dispose(home); c.dispose(home);`. -/
def ValSelCommit.dispose (sel : ValSel Sp View Val S) (com : ValCommit Sp View Val ME C)
    (self : ValSelCommit S C) (home : Sp) : Call Unit (ValSelCommit S C) Sp :=
  let rs := sel.dispose self.s home
  let rc := com.dispose self.c rs.2
  { ret := (), self := { s := rs.1, c := rc.1 }, home := rc.2 }

end ValSelCommitMembers

/-! ## Integer views, minimum value selection, equality commit -/

/-- Modelled from the spec: modification events, §4.2: "a Modification Event describing what
changed (none, bounds-changed, value-removed, became-assigned) or signaling failure if the
narrowing would make the domain empty". -/
inductive ModEvent
  | failed
  | none
  | bounds
  | value
  | assigned
  deriving DecidableEq, Repr

/-- Modelled from the spec: the modification event of narrowing domain `d` to `d'` (§4.2). -/
def ModEvent.ofNarrowing (d d' : Finset Int) : ModEvent :=
  if d' = ∅ then ModEvent.failed
  else if d' = d then ModEvent.none
  else if d'.card = 1 then ModEvent.assigned
  else if d'.min = d.min ∧ d'.max = d.max then ModEvent.value
  else ModEvent.bounds

/-- Domain of the variable implementation the (identity) view `x` refers to. -/
def Space.dom (home : Space) (x : Nat) : Finset Int := home.vars.getD x ∅

/-- Modelled from the spec: narrowing the variable of view `x` to the values satisfying `p`
(§3: "narrowing operations that can only shrink, never grow, the domain").  A narrowing
that leaves no value signals failure (§4.2) and leaves the empty domain behind: no value
remains in the space, which its caller then fails (§3: the "domain is never empty unless
the owning Space is marked failed"). -/
def Space.narrow (home : Space) (x : Nat) (p : Int → Bool) : ModEvent × Space :=
  let d := home.dom x
  let d' := d.filter (fun v => p v = true)
  (ModEvent.ofNarrowing d d', { home with vars := home.vars.set x d' })

/-- Modelled from the spec: the query `min` of an integer view (§4.2); `0` stands for the
minimum of an empty domain, which a non-failed space never has. -/
def IntView.min (home : Space) (x : Nat) : Int := WithTop.untop' 0 (home.dom x).min

/-- Modelled from the spec: the narrowing "view == value" of an integer view (§4.4). -/
def IntView.eq (home : Space) (x : Nat) (n : Int) : ModEvent × Space :=
  home.narrow x (fun v => decide (v = n))

/-- Modelled from the spec: the narrowing "view != value" of an integer view (§4.4). -/
def IntView.nq (home : Space) (x : Nat) (n : Int) : ModEvent × Space :=
  home.narrow x (fun v => decide (v ≠ n))

/-- Modelled from the spec: the value selection that "always selects the minimum" value
of the view (§8); it has no state, needs no notice and disposes of nothing. -/
def ValSelMin : ValSel Space Nat Int Unit where
  val := fun s home x => (IntView.min home x, s)
  clone := fun home _ s => { fresh := s, orig := s, home := home }
  notice := fun _ => false
  dispose := fun s home => (s, home)

/-- Modelled from the spec: the commit with "alternative 0 = view == value, alternative 1 =
view != value" (§4.4); it has no state, needs no notice and disposes of nothing. -/
def ValCommitEq : ValCommit Space Nat Int ModEvent Unit where
  commit := fun c home a x n =>
    let r := if a = 0 then IntView.eq home x n else IntView.nq home x n
    (r.1, c, r.2)
  clone := fun home _ c => { fresh := c, orig := c, home := home }
  notice := fun _ => false
  dispose := fun c home => (c, home)

/-- A value selection class whose object has a state, a number: `val` answers the number
and advances it, as a selection that draws its values from a generator does, and the
cloning constructor advances the number of the object it copies from, as a constructor
that leaves a mark in its original does.  Used to run `ValSelCommit` on a selection
object that is written to. -/
def ValSelCounter : ValSel Space Nat Int Nat where
  val := fun s _ _ => (Int.ofNat s, s + 1)
  clone := fun home _ s => { fresh := s, orig := s + 1, home := home }
  notice := fun _ => false
  dispose := fun s home => (s, home)

/-- The instance of `ValSelCommit<ValSelMin,ValCommitEq>`. -/
def minEq : ValSelCommit Unit Unit := { s := (), c := () }

/-- A space with the single integer variable of domain `d`, nothing posted, nothing
allocated. -/
def Space.single (d : Finset Int) : Space :=
  { failed := false, vars := [d], props := [], arena := [] }

/-! ## Recording the calls made on the two components -/

/-- A call of a member of the selection or of the commit object. -/
inductive MemberCall (View Val : Type)
  | selClone (shared : Bool)
  | selDispose
  | comCommit (a : Nat) (x : View) (n : Val)
  | comClone (shared : Bool)
  | comDispose
  deriving DecidableEq, Repr

/-- The selection class `sel`, with every call that is given the space as non-`const`
appended to a log kept beside the space. -/
def ValSel.traced {Sp View Val S : Type} (sel : ValSel Sp View Val S) :
    ValSel (Sp × List (MemberCall View Val)) View Val S where
  val := fun s h x => sel.val s h.1 x
  clone := fun h shared s =>
    let r := sel.clone h.1 shared s
    { fresh := r.fresh, orig := r.orig, home := (r.home, h.2 ++ [MemberCall.selClone shared]) }
  notice := sel.notice
  dispose := fun s h =>
    let r := sel.dispose s h.1
    (r.1, (r.2, h.2 ++ [MemberCall.selDispose]))

/-- The commit class `com`, with every call appended to a log kept beside the space. -/
def ValCommit.traced {Sp View Val ME C : Type} (com : ValCommit Sp View Val ME C) :
    ValCommit (Sp × List (MemberCall View Val)) View Val ME C where
  commit := fun c h a x n =>
    let r := com.commit c h.1 a x n
    (r.1, r.2.1, (r.2.2, h.2 ++ [MemberCall.comCommit a x n]))
  clone := fun h shared c =>
    let r := com.clone h.1 shared c
    { fresh := r.fresh, orig := r.orig, home := (r.home, h.2 ++ [MemberCall.comClone shared]) }
  notice := com.notice
  dispose := fun c h =>
    let r := com.dispose c h.1
    (r.1, (r.2, h.2 ++ [MemberCall.comDispose]))

/-! ## `set/rel-op.cpp` -/

/-- The enumeration `SetOpType`; `unknown` stands for a value of the enumeration type that
is none of the four enumerators (the `default:` label of the `switch`). -/
inductive SetOpType
  | SOT_UNION
  | SOT_DUNION
  | SOT_INTER
  | SOT_MINUS
  | unknown
  deriving DecidableEq, Repr

/-- The exceptions of `Gecode::Set` that `rel` can raise, with the location they carry. -/
inductive Exception
  | IllegalOperation (l : String)
  | UnknownOperation (l : String)
  | OutOfLimits (l : String)
  deriving DecidableEq, Repr

/-- Execution status returned by the `post` functions of propagators. -/
inductive ExecStatus
  | ES_FAILED
  | ES_OK
  deriving DecidableEq, Repr

/-- How a call of `rel` ends: the space as the call leaves it, and the exception thrown,
if any. -/
structure Posted where
  home : Space
  thrown : Option Exception
  deriving DecidableEq

/-- The `post` functions of the propagator classes `UnionN`, `PartitionN` and
`IntersectionN` of `gecode/set/rel-op.hh` (not among the sources), one for each of the
two argument shapes `(home, xa, y)` and `(home, xa, z, y)`. -/
structure RelOpPost where
  unionN : Space → List Nat → Nat → ExecStatus × Space
  unionNz : Space → List Nat → List Int → Nat → ExecStatus × Space
  partitionN : Space → List Nat → Nat → ExecStatus × Space
  partitionNz : Space → List Nat → List Int → Nat → ExecStatus × Space
  intersectionN : Space → List Nat → Nat → ExecStatus × Space
  intersectionNz : Space → List Nat → List Int → Nat → ExecStatus × Space

/-- Modelled from the spec: the macro `GECODE_POST` is not among the sources.  §4.1: "all
further propagation/branching calls on a failed Space are no-ops": the posting function
returns at once when the space is failed, and goes on with `k` otherwise. -/
def GECODE_POST (home : Space) (k : Space → Posted) : Posted :=
  if home.isFailed then { home := home, thrown := none } else k home

/-- Modelled from the spec: the macro `GECODE_ES_FAIL` is not among the sources.  §4.1:
the space is "Failed once any propagator or narrowing operation signals inconsistency":
when the status is `ES_FAILED` the space is failed and the posting function returns. -/
def GECODE_ES_FAIL (r : ExecStatus × Space) : Posted :=
  if r.1 = ExecStatus.ES_FAILED then { home := r.2.fail, thrown := none }
  else { home := r.2, thrown := none }

/-- Modelled from the spec: the constructor `ViewArray<SetView>(home, x)` is not among the
sources.  §4.1: "all kernel-owned objects are allocated from the Space's own arena": the
array of the `x.size()` views is a block of the arena of `home` (no block for an empty
array); the views are the identity views of the variables. -/
def ViewArray.ofArgs (home : Space) (x : List Nat) : List Nat × Space :=
  if 0 < x.length then (x, (home.ralloc x.length).2) else (x, home)

/-- Modelled from the spec: `Set::Limits::check(z, l)` is not among the sources.  §7: an
error is raised for "bounds exceeding representable limits": `OutOfLimits` with location
`l` when a value of `z` lies outside `[-max, max]`, where `max` is `Set::Limits::max`. -/
def Set.Limits.check (max : Int) (z : List Int) (l : String) : Option Exception :=
  if z.all (fun v => decide (-max ≤ v ∧ v ≤ max)) then none
  else some (Exception.OutOfLimits l)

/-- The function `rel(Home home, SetOpType op, const SetVarArgs& x, SetVar y)`. -/
def rel (P : RelOpPost) (home : Space) (op : SetOpType) (x : List Nat) (y : Nat) : Posted :=
  GECODE_POST home fun home =>
    let xa := ViewArray.ofArgs home x
    match op with
    | SetOpType.SOT_UNION => GECODE_ES_FAIL (P.unionN xa.2 xa.1 y)
    | SetOpType.SOT_DUNION => GECODE_ES_FAIL (P.partitionN xa.2 xa.1 y)
    | SetOpType.SOT_INTER => GECODE_ES_FAIL (P.intersectionN xa.2 xa.1 y)
    | SetOpType.SOT_MINUS =>
      { home := xa.2, thrown := some (Exception.IllegalOperation "Set::rel") }
    | SetOpType.unknown =>
      { home := xa.2, thrown := some (Exception.UnknownOperation "Set::rel") }

/-- The function
`rel(Home home, SetOpType op, const SetVarArgs& x, const IntSet& z, SetVar y)`;
`max` is `Set::Limits::max`. -/
def relIntSet (max : Int) (P : RelOpPost) (home : Space) (op : SetOpType) (x : List Nat)
    (z : List Int) (y : Nat) : Posted :=
  GECODE_POST home fun home =>
    match Set.Limits.check max z "Set::rel" with
    | some e => { home := home, thrown := some e }
    | none =>
      let xa := ViewArray.ofArgs home x
      match op with
      | SetOpType.SOT_UNION => GECODE_ES_FAIL (P.unionNz xa.2 xa.1 z y)
      | SetOpType.SOT_DUNION => GECODE_ES_FAIL (P.partitionNz xa.2 xa.1 z y)
      | SetOpType.SOT_INTER => GECODE_ES_FAIL (P.intersectionNz xa.2 xa.1 z y)
      | SetOpType.SOT_MINUS =>
        { home := xa.2, thrown := some (Exception.IllegalOperation "Set::rel") }
      | SetOpType.unknown =>
        { home := xa.2, thrown := some (Exception.UnknownOperation "Set::rel") }

/-- Post functions that post one propagator of their class on the given views: used to
run `rel` on concrete arguments. -/
def RelOpPost.simple : RelOpPost where
  unionN := fun home xa y =>
    (ExecStatus.ES_OK, { home with props := home.props ++ [⟨PropKindSet.UnionN, xa, none, y⟩] })
  unionNz := fun home xa z y =>
    (ExecStatus.ES_OK, { home with props := home.props ++ [⟨PropKindSet.UnionN, xa, some z, y⟩] })
  partitionN := fun home xa y =>
    (ExecStatus.ES_OK,
      { home with props := home.props ++ [⟨PropKindSet.PartitionN, xa, none, y⟩] })
  partitionNz := fun home xa z y =>
    (ExecStatus.ES_OK,
      { home with props := home.props ++ [⟨PropKindSet.PartitionN, xa, some z, y⟩] })
  intersectionN := fun home xa y =>
    (ExecStatus.ES_OK,
      { home with props := home.props ++ [⟨PropKindSet.IntersectionN, xa, none, y⟩] })
  intersectionNz := fun home xa z y =>
    (ExecStatus.ES_OK,
      { home with props := home.props ++ [⟨PropKindSet.IntersectionN, xa, some z, y⟩] })

/-- A space with nothing in it: not failed, no variable, nothing posted, nothing
allocated. -/
def Space.empty : Space := { failed := false, vars := [], props := [], arena := [] }

/-- Post functions that all answer `ES_FAILED` and leave the space as it is: used to run
`rel` on a failing post. -/
def RelOpPost.failing : RelOpPost where
  unionN := fun home _ _ => (ExecStatus.ES_FAILED, home)
  unionNz := fun home _ _ _ => (ExecStatus.ES_FAILED, home)
  partitionN := fun home _ _ => (ExecStatus.ES_FAILED, home)
  partitionNz := fun home _ _ _ => (ExecStatus.ES_FAILED, home)
  intersectionN := fun home _ _ => (ExecStatus.ES_FAILED, home)
  intersectionNz := fun home _ _ _ => (ExecStatus.ES_FAILED, home)

/-! ## `minimodel/bool-expr.hpp` -/

/-- The enumeration `BoolExpr::NodeType` of `minimodel.hh` (not among the sources):
`NT_NOT`, `NT_AND`, `NT_OR` and `NT_EQV` are the types of inner nodes that `bool-expr.hpp`
names; `NT_VAR` and `NT_RLIN` stand for the types of the leaves (a Boolean variable, a
reified linear relation). -/
inductive BoolExpr.NodeType
  | NT_VAR
  | NT_NOT
  | NT_AND
  | NT_OR
  | NT_EQV
  | NT_RLIN
  deriving DecidableEq, Repr

/-- Class `BoolExpr`: an expression is the reference `n` to its node; `Node` is the type of
these references. -/
structure BoolExpr (Node : Type) where
  n : Node
  deriving DecidableEq, Repr

/-- The two constructors of class `BoolExpr` that build an inner node, declared in
`minimodel.hh` and defined elsewhere (not among the sources). -/
structure BoolExprCtors (Node : Type) where
  /-- The constructor `BoolExpr(const BoolExpr& l, NodeType t)`. -/
  unary : BoolExpr Node → BoolExpr.NodeType → BoolExpr Node
  /-- The constructor `BoolExpr(const BoolExpr& l, NodeType t, const BoolExpr& r)`. -/
  binary : BoolExpr Node → BoolExpr.NodeType → BoolExpr Node → BoolExpr Node

/-- A truth valuation of the expressions built with the constructors `B`: a truth value
for every expression that reads a node of type `NT_NOT` as the negation of its operand
and nodes of type `NT_AND`, `NT_OR` and `NT_EQV` as the conjunction, the disjunction and
the equivalence of their operands.  Every assignment of truth values to the leaves gives
one such valuation. -/
structure BoolExprCtors.Valuation {Node : Type} (B : BoolExprCtors Node)
    (v : BoolExpr Node → Bool) : Prop where
  not : ∀ l, v (B.unary l BoolExpr.NodeType.NT_NOT) = !v l
  and : ∀ l r, v (B.binary l BoolExpr.NodeType.NT_AND r) = (v l && v r)
  or : ∀ l r, v (B.binary l BoolExpr.NodeType.NT_OR r) = (v l || v r)
  eqv : ∀ l r, v (B.binary l BoolExpr.NodeType.NT_EQV r) = (v l == v r)

section BoolExprOperators

variable {Node : Type} (B : BoolExprCtors Node)

/-- The function `operator&&(l, r)`: `return BoolExpr(l,BoolExpr::NT_AND,r);`. -/
def operatorAnd (l r : BoolExpr Node) : BoolExpr Node :=
  B.binary l BoolExpr.NodeType.NT_AND r

/-- The function `operator||(l, r)`: `return BoolExpr(l,BoolExpr::NT_OR,r);`. -/
def operatorOr (l r : BoolExpr Node) : BoolExpr Node :=
  B.binary l BoolExpr.NodeType.NT_OR r

/-- The function `operator^(l, r)`:
`return BoolExpr(BoolExpr(l,BoolExpr::NT_EQV,r),BoolExpr::NT_NOT);`. -/
def operatorXor (l r : BoolExpr Node) : BoolExpr Node :=
  B.unary (B.binary l BoolExpr.NodeType.NT_EQV r) BoolExpr.NodeType.NT_NOT

/-- The function `operator!(e)`: `return BoolExpr(e,BoolExpr::NT_NOT);`. -/
def operatorNot (e : BoolExpr Node) : BoolExpr Node :=
  B.unary e BoolExpr.NodeType.NT_NOT

/-- The function `eqv(l, r)`: `return BoolExpr(l, BoolExpr::NT_EQV, r);`. -/
def eqv (l r : BoolExpr Node) : BoolExpr Node :=
  B.binary l BoolExpr.NodeType.NT_EQV r

/-- The function `imp(l, r)`:
`return BoolExpr(BoolExpr(l,BoolExpr::NT_NOT), BoolExpr::NT_OR,r);`. -/
def imp (l r : BoolExpr Node) : BoolExpr Node :=
  B.binary (B.unary l BoolExpr.NodeType.NT_NOT) BoolExpr.NodeType.NT_OR r

end BoolExprOperators

/-- Expression trees: nodes that hold their operands, with a Boolean variable (by its
number) at each leaf.  Used to run the operators on concrete expressions. -/
inductive BoolTree
  | var (x : Nat)
  | node1 (t : BoolExpr.NodeType) (l : BoolTree)
  | node2 (l : BoolTree) (t : BoolExpr.NodeType) (r : BoolTree)
  deriving DecidableEq, Repr

/-- The constructors of inner nodes on expression trees: a new node over the operands. -/
def BoolTree.ctors : BoolExprCtors BoolTree where
  unary := fun l t => { n := BoolTree.node1 t l.n }
  binary := fun l t r => { n := BoolTree.node2 l.n t r.n }

/-- Truth value of an expression tree under the assignment `σ` of truth values to the
variables. -/
def BoolTree.value (σ : Nat → Bool) : BoolTree → Bool
  | BoolTree.var x => σ x
  | BoolTree.node1 BoolExpr.NodeType.NT_NOT l => !BoolTree.value σ l
  | BoolTree.node1 _ l => BoolTree.value σ l
  | BoolTree.node2 l BoolExpr.NodeType.NT_AND r => BoolTree.value σ l && BoolTree.value σ r
  | BoolTree.node2 l BoolExpr.NodeType.NT_OR r => BoolTree.value σ l || BoolTree.value σ r
  | BoolTree.node2 l BoolExpr.NodeType.NT_EQV r => BoolTree.value σ l == BoolTree.value σ r
  | BoolTree.node2 _ _ _ => false

/-- The classes `Region` and `NNF` as `BoolExpr::post` uses them (neither is among the
sources): the construction of a region from the space, the function `NNF::nnf`, the two
`post` members of the normal form, and the end of the region when the block is left. -/
structure NNFClass (Sp Region Node NNF BoolVar ICL PK : Type) where
  /-- The declaration `Region r(home)`. -/
  region : Sp → Region × Sp
  /-- The function `NNF::nnf(r, n, neg)`. -/
  nnf : Region → Node → Bool → NNF × Region
  /-- The member `NNF::post(home, icl, pk)`, which returns a `BoolVar`. -/
  post : NNF → Sp → ICL → PK → BoolVar × Sp
  /-- The member `NNF::post(home, t, icl, pk)`. -/
  postT : NNF → Sp → Bool → ICL → PK → Sp
  /-- The destructor of `r` at the end of the block. -/
  release : Region → Sp → Sp

section BoolExprPost

variable {Sp Region Node NNF BoolVar ICL PK : Type}

/-- The member `BoolExpr::post(Space& home, IntConLevel icl, PropKind pk) const`:
`Region r(home); return NNF::nnf(r,n,false)->post(home,icl,pk);`. -/
def BoolExpr.post (N : NNFClass Sp Region Node NNF BoolVar ICL PK) (self : BoolExpr Node)
    (home : Sp) (icl : ICL) (pk : PK) : Call BoolVar (BoolExpr Node) Sp :=
  let r := N.region home
  let k := N.nnf r.1 self.n false
  let b := N.post k.1 r.2 icl pk
  { ret := b.1, self := self, home := N.release k.2 b.2 }

/-- The member `BoolExpr::post(Space& home, bool t, IntConLevel icl, PropKind pk) const`:
`Region r(home); return NNF::nnf(r,n,false)->post(home,t,icl,pk);`. -/
def BoolExpr.postT (N : NNFClass Sp Region Node NNF BoolVar ICL PK) (self : BoolExpr Node)
    (home : Sp) (t : Bool) (icl : ICL) (pk : PK) : Call Unit (BoolExpr Node) Sp :=
  let r := N.region home
  let k := N.nnf r.1 self.n false
  let h := N.postT k.1 r.2 t icl pk
  { ret := (), self := self, home := N.release k.2 h }

/-- The function `post(Space& home, const BoolExpr& e, IntConLevel icl, PropKind pk)`:
`return e.post(home,icl,pk);`. -/
def postExpr (N : NNFClass Sp Region Node NNF BoolVar ICL PK) (home : Sp)
    (e : BoolExpr Node) (icl : ICL) (pk : PK) : Call BoolVar (BoolExpr Node) Sp :=
  BoolExpr.post N e home icl pk

/-- The function `post(Space&, const BoolVar& b, IntConLevel, PropKind)`: `return b;`. -/
def postVar (home : Sp) (b : BoolVar) (_icl : ICL) (_pk : PK) : BoolVar × Sp :=
  (b, home)

end BoolExprPost

/-- The calls of `NNF::nnf` and of the `post` members of the normal form, as recorded by
`NNFClass.traced`. -/
inductive NNFCall (Node NNF ICL PK : Type)
  | nnf (n : Node) (neg : Bool)
  | post (k : NNF) (icl : ICL) (pk : PK)
  | postT (k : NNF) (t : Bool) (icl : ICL) (pk : PK)
  deriving DecidableEq, Repr

/-- The classes `N`, with every call of `nnf` appended to a log kept with the region and
every call of a `post` member appended to a log kept beside the space; at the end of the
region the log of the region is put in front of the log of the space. -/
def NNFClass.traced {Sp Region Node NNF BoolVar ICL PK : Type}
    (N : NNFClass Sp Region Node NNF BoolVar ICL PK) :
    NNFClass (Sp × List (NNFCall Node NNF ICL PK)) (Region × List (NNFCall Node NNF ICL PK))
      Node NNF BoolVar ICL PK where
  region := fun h => (((N.region h.1).1, []), ((N.region h.1).2, h.2))
  nnf := fun r n neg => ((N.nnf r.1 n neg).1, ((N.nnf r.1 n neg).2, r.2 ++ [NNFCall.nnf n neg]))
  post := fun k h icl pk => ((N.post k h.1 icl pk).1, ((N.post k h.1 icl pk).2,
    h.2 ++ [NNFCall.post k icl pk]))
  postT := fun k h t icl pk => (N.postT k h.1 t icl pk, h.2 ++ [NNFCall.postT k t icl pk])
  release := fun r h => (N.release r.1 h.1, r.2 ++ h.2)

/-- Class `BoolExpr::Node` of `minimodel.hh` (not among the sources), as far as
`bool-expr.hpp` refers to it: the use count `use` that the copy constructor increments,
the type `t` of the node and the references `l` and `r` to its operands (none for a
missing operand).  A reference to a node is its position in the heap of nodes. -/
structure BoolExpr.Node where
  use : Nat
  t : BoolExpr.NodeType
  l : Option Nat
  r : Option Nat
  deriving DecidableEq, Repr

/-- The statement `n->use++` on the node that `p` refers to.  The member `use` is a counter
of a machine integer type, taken as an unsigned integer of `w` bits (the declaration is
in `minimodel.hh`): the increment is modulo `2 ^ w`. -/
def BoolExpr.Node.incUse (w : Nat) (heap : List BoolExpr.Node) (p : Nat) :
    List BoolExpr.Node :=
  match heap[p]? with
  | some nd => heap.set p { nd with use := (nd.use + 1) % 2 ^ w }
  | none => heap

/-- The copy constructor `BoolExpr::BoolExpr(const BoolExpr& e) : n(e.n) { n->use++; }`:
the new expression and the heap of nodes after the construction. -/
def BoolExpr.copy (w : Nat) (heap : List BoolExpr.Node) (e : BoolExpr Nat) :
    BoolExpr Nat × List BoolExpr.Node :=
  ({ n := e.n }, BoolExpr.Node.incUse w heap e.n)

/-! ## Lemmas -/

theorem ViewArray.ofArgs_frame (home : Space) (x : List Nat) :
    (ViewArray.ofArgs home x).2.failed = home.failed ∧
    (ViewArray.ofArgs home x).2.vars = home.vars ∧
    (ViewArray.ofArgs home x).2.props = home.props := by
  unfold ViewArray.ofArgs Space.ralloc
  split <;> exact ⟨rfl, rfl, rfl⟩

theorem Set.Limits.check_of_within (max : Int) (z : List Int) (l : String)
    (hz : ∀ v ∈ z, -max ≤ v ∧ v ≤ max) : Set.Limits.check max z l = none := by
  simp only [Set.Limits.check, ite_eq_left_iff, List.all_eq_true, decide_eq_true_eq]
  intro h
  exact absurd hz h

theorem rel_of_not_failed (P : RelOpPost) (home : Space) (op : SetOpType) (x : List Nat)
    (y : Nat) (hf : home.failed = false) :
    rel P home op x y =
      match op with
      | SetOpType.SOT_UNION =>
        GECODE_ES_FAIL (P.unionN (ViewArray.ofArgs home x).2 (ViewArray.ofArgs home x).1 y)
      | SetOpType.SOT_DUNION =>
        GECODE_ES_FAIL (P.partitionN (ViewArray.ofArgs home x).2 (ViewArray.ofArgs home x).1 y)
      | SetOpType.SOT_INTER =>
        GECODE_ES_FAIL
          (P.intersectionN (ViewArray.ofArgs home x).2 (ViewArray.ofArgs home x).1 y)
      | SetOpType.SOT_MINUS =>
        { home := (ViewArray.ofArgs home x).2,
          thrown := some (Exception.IllegalOperation "Set::rel") }
      | SetOpType.unknown =>
        { home := (ViewArray.ofArgs home x).2,
          thrown := some (Exception.UnknownOperation "Set::rel") } := by
  unfold rel GECODE_POST Space.isFailed
  rw [hf]
  cases op <;> rfl

theorem relIntSet_of_within (max : Int) (P : RelOpPost) (home : Space) (op : SetOpType)
    (x : List Nat) (z : List Int) (y : Nat) (hf : home.failed = false)
    (hz : ∀ v ∈ z, -max ≤ v ∧ v ≤ max) :
    relIntSet max P home op x z y =
      match op with
      | SetOpType.SOT_UNION =>
        GECODE_ES_FAIL (P.unionNz (ViewArray.ofArgs home x).2 (ViewArray.ofArgs home x).1 z y)
      | SetOpType.SOT_DUNION =>
        GECODE_ES_FAIL
          (P.partitionNz (ViewArray.ofArgs home x).2 (ViewArray.ofArgs home x).1 z y)
      | SetOpType.SOT_INTER =>
        GECODE_ES_FAIL
          (P.intersectionNz (ViewArray.ofArgs home x).2 (ViewArray.ofArgs home x).1 z y)
      | SetOpType.SOT_MINUS =>
        { home := (ViewArray.ofArgs home x).2,
          thrown := some (Exception.IllegalOperation "Set::rel") }
      | SetOpType.unknown =>
        { home := (ViewArray.ofArgs home x).2,
          thrown := some (Exception.UnknownOperation "Set::rel") } := by
  unfold relIntSet GECODE_POST Space.isFailed
  rw [hf, Set.Limits.check_of_within max z "Set::rel" hz]
  cases op <;> rfl

theorem relIntSet_of_outside (max : Int) (P : RelOpPost) (home : Space) (op : SetOpType)
    (x : List Nat) (z : List Int) (y : Nat) (hf : home.failed = false)
    (hz : ¬ (∀ v ∈ z, -max ≤ v ∧ v ≤ max)) :
    relIntSet max P home op x z y
      = { home := home, thrown := some (Exception.OutOfLimits "Set::rel") } := by
  have hc : Set.Limits.check max z "Set::rel" = some (Exception.OutOfLimits "Set::rel") := by
    simp only [Set.Limits.check, ite_eq_right_iff, List.all_eq_true, decide_eq_true_eq]
    intro h
    exact absurd h hz
  unfold relIntSet GECODE_POST Space.isFailed
  rw [hf, hc]
  rfl

theorem rel_of_failed (P : RelOpPost) (home : Space) (op : SetOpType) (x : List Nat)
    (y : Nat) (hf : home.failed = true) :
    rel P home op x y = { home := home, thrown := none } := by
  unfold rel GECODE_POST Space.isFailed
  rw [hf]
  rfl

theorem relIntSet_of_failed (max : Int) (P : RelOpPost) (home : Space) (op : SetOpType)
    (x : List Nat) (z : List Int) (y : Nat) (hf : home.failed = true) :
    relIntSet max P home op x z y = { home := home, thrown := none } := by
  unfold relIntSet GECODE_POST Space.isFailed
  rw [hf]
  rfl

theorem GECODE_ES_FAIL_spec (r : ExecStatus × Space) :
    (GECODE_ES_FAIL r).thrown = none ∧
    (r.1 = ExecStatus.ES_FAILED → (GECODE_ES_FAIL r).home.failed = true) ∧
    (r.1 ≠ ExecStatus.ES_FAILED → (GECODE_ES_FAIL r).home = r.2) := by
  unfold GECODE_ES_FAIL
  by_cases h : r.1 = ExecStatus.ES_FAILED
  · simp [h, Space.fail]
  · simp [h]

theorem BoolTree.valuation (σ : Nat → Bool) :
    BoolTree.ctors.Valuation (fun e => BoolTree.value σ e.n) where
  not := fun _ => rfl
  and := fun _ _ => rfl
  or := fun _ _ => rfl
  eqv := fun _ _ => rfl

theorem BoolExpr.Node.incUse_self (w : Nat) (heap : List BoolExpr.Node) (p : Nat)
    (nd : BoolExpr.Node) (h : heap[p]? = some nd) :
    (BoolExpr.Node.incUse w heap p)[p]? = some { nd with use := (nd.use + 1) % 2 ^ w } := by
  have hp : p < heap.length := by
    by_contra hc
    rw [List.getElem?_eq_none (Nat.le_of_not_lt hc)] at h
    exact Option.noConfusion h
  unfold BoolExpr.Node.incUse
  rw [h]
  simp [hp]

theorem BoolExpr.Node.incUse_other (w : Nat) (heap : List BoolExpr.Node) (p q : Nat)
    (hq : q ≠ p) : (BoolExpr.Node.incUse w heap p)[q]? = heap[q]? := by
  unfold BoolExpr.Node.incUse
  cases h : heap[p]? with
  | none => rfl
  | some nd =>
    simp only
    rw [List.getElem?_set_ne (Ne.symm hq)]

theorem BoolExpr.Node.incUse_length (w : Nat) (heap : List BoolExpr.Node) (p : Nat) :
    (BoolExpr.Node.incUse w heap p).length = heap.length := by
  unfold BoolExpr.Node.incUse
  cases h : heap[p]? with
  | none => rfl
  | some nd => simp

/-- C1: for the `ValSelCommit` made of the minimum value selection and the equal / not equal
commit, on a single variable with domain {1,2,3}: `val` returns 1 and leaves the parent as
it was; `commit` with alternative 0 and that value on one clone of the parent leaves
domain {1}; `commit` with alternative 1 and that value on another clone of the same
parent leaves domain {2,3}; each child is the space of that single variable, and neither
commit signals failure. -/
theorem valSelCommit_scenario_min_eq :
    (ValSelCommit.val ValSelMin minEq (Space.single {1, 2, 3}) 0).ret = 1 ∧
    (ValSelCommit.val ValSelMin minEq (Space.single {1, 2, 3}) 0).home
      = Space.single {1, 2, 3} ∧
    (ValSelCommit.commit ValCommitEq minEq (Space.single {1, 2, 3}).clone 0 0
      (ValSelCommit.val ValSelMin minEq (Space.single {1, 2, 3}) 0).ret).home.dom 0
      = {1} ∧
    (ValSelCommit.commit ValCommitEq minEq (Space.single {1, 2, 3}).clone 1 0
      (ValSelCommit.val ValSelMin minEq (Space.single {1, 2, 3}) 0).ret).home.dom 0
      = {2, 3} ∧
    (ValSelCommit.commit ValCommitEq minEq (Space.single {1, 2, 3}).clone 0 0
      (ValSelCommit.val ValSelMin minEq (Space.single {1, 2, 3}) 0).ret).home
      = Space.single {1} ∧
    (ValSelCommit.commit ValCommitEq minEq (Space.single {1, 2, 3}).clone 1 0
      (ValSelCommit.val ValSelMin minEq (Space.single {1, 2, 3}) 0).ret).home
      = Space.single {2, 3} ∧
    (ValSelCommit.commit ValCommitEq minEq (Space.single {1, 2, 3}).clone 0 0
      (ValSelCommit.val ValSelMin minEq (Space.single {1, 2, 3}) 0).ret).ret
      = ModEvent.assigned ∧
    (ValSelCommit.commit ValCommitEq minEq (Space.single {1, 2, 3}).clone 1 0
      (ValSelCommit.val ValSelMin minEq (Space.single {1, 2, 3}) 0).ret).ret
      = ModEvent.bounds := by
  decide

/-- C3, the claim as stated fails: with a selection object that has a state (a number that
`val` answers and advances), a call of `ValSelCommit::val` leaves the space as it was but
not the object, and a second call on the same space state and the same view returns 1
where the first returned 0. -/
theorem valSelCommit_val_with_state :
    (ValSelCommit.val ValSelCounter ({ s := 0, c := () } : ValSelCommit Nat Unit)
      (Space.single {1, 2, 3}) 0).ret = 0 ∧
    (ValSelCommit.val ValSelCounter ({ s := 0, c := () } : ValSelCommit Nat Unit)
      (Space.single {1, 2, 3}) 0).home = Space.single {1, 2, 3} ∧
    (ValSelCommit.val ValSelCounter ({ s := 0, c := () } : ValSelCommit Nat Unit)
      (Space.single {1, 2, 3}) 0).self ≠ { s := 0, c := () } ∧
    (ValSelCommit.val ValSelCounter
      (ValSelCommit.val ValSelCounter ({ s := 0, c := () } : ValSelCommit Nat Unit)
        (Space.single {1, 2, 3}) 0).self
      (ValSelCommit.val ValSelCounter ({ s := 0, c := () } : ValSelCommit Nat Unit)
        (Space.single {1, 2, 3}) 0).home 0).ret = 1 := by
  decide

/-- C3, amended: `ValSelCommit::val(home, x)` leaves the space as it was, returns exactly the
value the selection object computes for `(home, x)`, and neither reads nor writes the
commit object; the selection object is after the call as its own `val` leaves it.  The
value is the same for every object with the same selection object, so two calls on the
same space state and view return the same value when the selection object is in the
same state at both; when `s.val` leaves the selection object as it was, the object is
unchanged and a second call returns the same value. -/
theorem valSelCommit_val_pure_query {Sp View Val S C : Type} (sel : ValSel Sp View Val S)
    (self : ValSelCommit S C) (home : Sp) (x : View) :
    (ValSelCommit.val sel self home x).home = home ∧
    (ValSelCommit.val sel self home x).ret = (sel.val self.s home x).1 ∧
    (ValSelCommit.val sel self home x).self.s = (sel.val self.s home x).2 ∧
    (ValSelCommit.val sel self home x).self.c = self.c ∧
    (∀ (C' : Type) (c' : C'),
      (ValSelCommit.val sel ({ s := self.s, c := c' } : ValSelCommit S C') home x).ret
        = (ValSelCommit.val sel self home x).ret) ∧
    (∀ other : ValSelCommit S C, other.s = self.s →
      (ValSelCommit.val sel other home x).ret = (ValSelCommit.val sel self home x).ret) ∧
    ((sel.val self.s home x).2 = self.s →
      (ValSelCommit.val sel self home x).self = self ∧
      (ValSelCommit.val sel (ValSelCommit.val sel self home x).self
          (ValSelCommit.val sel self home x).home x).ret
        = (ValSelCommit.val sel self home x).ret) := by
  refine ⟨rfl, rfl, rfl, rfl, fun _ _ => rfl, ?_, ?_⟩
  · intro other h
    unfold ValSelCommit.val
    rw [h]
  · intro h
    have hs : (ValSelCommit.val sel self home x).self = self := by
      unfold ValSelCommit.val
      simp only
      rw [h]
    refine ⟨hs, ?_⟩
    rw [hs]
    rfl

theorem valSelCommit_val_pure_query_witness :
    (ValSelCommit.val ValSelMin minEq (Space.single {1, 2, 3}) 0).self = minEq ∧
    (ValSelCommit.val ValSelMin
        (ValSelCommit.val ValSelMin minEq (Space.single {1, 2, 3}) 0).self
        (ValSelCommit.val ValSelMin minEq (Space.single {1, 2, 3}) 0).home 0).ret
      = (ValSelCommit.val ValSelMin minEq (Space.single {1, 2, 3}) 0).ret ∧
    (ValSelCommit.val ValSelCounter ({ s := 7, c := true } : ValSelCommit Nat Bool)
        (Space.single {1, 2, 3}) 0).ret
      = (ValSelCommit.val ValSelCounter ({ s := 7, c := false } : ValSelCommit Nat Bool)
        (Space.single {1, 2, 3}) 0).ret :=
  ⟨((valSelCommit_val_pure_query ValSelMin minEq (Space.single {1, 2, 3}) 0).2.2.2.2.2.2
      rfl).1,
   ((valSelCommit_val_pure_query ValSelMin minEq (Space.single {1, 2, 3}) 0).2.2.2.2.2.2
      rfl).2,
   (valSelCommit_val_pure_query ValSelCounter ({ s := 7, c := false } : ValSelCommit Nat Bool)
      (Space.single {1, 2, 3}) 0).2.2.2.2.2.1 { s := 7, c := true } rfl⟩

/-- C4: `ValSelCommit::commit(home, a, x, n)` applies exactly one alternative: the event
returned, the space left and the commit object left are those of the one call
`c.commit(home, a, x, n)`; the selection object is left as it was and has no influence on
the result; the only call recorded on the components is that one commit, with `a`, `x`
and `n` as given. -/
theorem valSelCommit_commit_one_alternative {Sp View Val ME S C : Type}
    (com : ValCommit Sp View Val ME C) (self : ValSelCommit S C) (home : Sp) (a : Nat)
    (x : View) (n : Val) :
    (ValSelCommit.commit com self home a x n).ret = (com.commit self.c home a x n).1 ∧
    (ValSelCommit.commit com self home a x n).home = (com.commit self.c home a x n).2.2 ∧
    (ValSelCommit.commit com self home a x n).self.c = (com.commit self.c home a x n).2.1 ∧
    (ValSelCommit.commit com self home a x n).self.s = self.s ∧
    (∀ (S' : Type) (s' : S'),
      (ValSelCommit.commit com ({ s := s', c := self.c } : ValSelCommit S' C) home a x n).ret
        = (ValSelCommit.commit com self home a x n).ret ∧
      (ValSelCommit.commit com ({ s := s', c := self.c } : ValSelCommit S' C) home a x n).home
        = (ValSelCommit.commit com self home a x n).home) ∧
    (ValSelCommit.commit com.traced self (home, []) a x n).home
      = ((ValSelCommit.commit com self home a x n).home, [MemberCall.comCommit a x n]) ∧
    (ValSelCommit.commit com.traced self (home, []) a x n).ret
      = (ValSelCommit.commit com self home a x n).ret :=
  ⟨rfl, rfl, rfl, rfl, fun _ _ => ⟨rfl, rfl⟩, rfl, rfl⟩

/-- C5, the claim as stated fails: with a selection class whose cloning constructor writes
to the object it copies from (it advances the number of its original), `copy` returns a
copy with the number 0 of the original and leaves the original with the number 1: the
original instance is not left unchanged. -/
theorem valSelCommit_copy_writes_original :
    (ValSelCommit.copy Space.ralloc 16 ValSelCounter ValCommitEq
      ({ s := 0, c := () } : ValSelCommit Nat Unit) Space.empty true).ret.2
      = { s := 0, c := () } ∧
    (ValSelCommit.copy Space.ralloc 16 ValSelCounter ValCommitEq
      ({ s := 0, c := () } : ValSelCommit Nat Unit) Space.empty true).self
      = { s := 1, c := () } ∧
    (ValSelCommit.copy Space.ralloc 16 ValSelCounter ValCommitEq
      ({ s := 0, c := () } : ValSelCommit Nat Unit) Space.empty true).self
      ≠ { s := 0, c := () } := by
  decide

/-- C5, amended: `ValSelCommit::copy(home, shared)`, for either value of `shared`: the new
object is in the block that `home.ralloc` hands out for it; its selection object is the
copy the cloning constructor of the selection class makes of the original's with that
`shared`, its commit object the copy the cloning constructor of the commit class makes
of the original's with that `shared`; the calls recorded on the components are these
two constructions and nothing else.  The original object is written only by these two
constructors, each to the component it copies from: it is left as it was when they
leave their originals as they were.  `val`, `commit` and `notice` of the copy are those
of the copied components: same value, same event, same space left, same component
left. -/
theorem valSelCommit_copy_components {Sp View Val ME S C Ptr : Type}
    (ralloc : Sp → Nat → Ptr × Sp) (size : Nat)
    (sel : ValSel Sp View Val S) (com : ValCommit Sp View Val ME C)
    (self : ValSelCommit S C) (home : Sp) (shared : Bool) :
    (ValSelCommit.copy ralloc size sel com self home shared).ret.1 = (ralloc home size).1 ∧
    (ValSelCommit.copy ralloc size sel com self home shared).ret.2.s
      = (sel.clone (ralloc home size).2 shared self.s).fresh ∧
    (ValSelCommit.copy ralloc size sel com self home shared).ret.2.c
      = (com.clone (sel.clone (ralloc home size).2 shared self.s).home shared self.c).fresh ∧
    (ValSelCommit.copy ralloc size sel com self home shared).home
      = (com.clone (sel.clone (ralloc home size).2 shared self.s).home shared self.c).home ∧
    (ValSelCommit.copy (fun h k => ((ralloc h.1 k).1, ((ralloc h.1 k).2, h.2))) size
        sel.traced com.traced self (home, []) shared).home.2
      = [MemberCall.selClone shared, MemberCall.comClone shared] ∧
    (ValSelCommit.copy ralloc size sel com self home shared).self.s
      = (sel.clone (ralloc home size).2 shared self.s).orig ∧
    (ValSelCommit.copy ralloc size sel com self home shared).self.c
      = (com.clone (sel.clone (ralloc home size).2 shared self.s).home shared self.c).orig ∧
    ((sel.clone (ralloc home size).2 shared self.s).orig = self.s →
      (com.clone (sel.clone (ralloc home size).2 shared self.s).home shared self.c).orig
        = self.c →
      (ValSelCommit.copy ralloc size sel com self home shared).self = self) ∧
    (∀ (h : Sp) (x : View),
      (ValSelCommit.val sel (ValSelCommit.copy ralloc size sel com self home shared).ret.2
          h x).ret
        = (sel.val (sel.clone (ralloc home size).2 shared self.s).fresh h x).1 ∧
      (ValSelCommit.val sel (ValSelCommit.copy ralloc size sel com self home shared).ret.2
          h x).self.s
        = (sel.val (sel.clone (ralloc home size).2 shared self.s).fresh h x).2 ∧
      (ValSelCommit.val sel (ValSelCommit.copy ralloc size sel com self home shared).ret.2
          h x).home = h) ∧
    (∀ (h : Sp) (a : Nat) (x : View) (n : Val),
      (ValSelCommit.commit com (ValSelCommit.copy ralloc size sel com self home shared).ret.2
          h a x n).ret
        = (com.commit
            (com.clone (sel.clone (ralloc home size).2 shared self.s).home shared
              self.c).fresh h a x n).1 ∧
      (ValSelCommit.commit com (ValSelCommit.copy ralloc size sel com self home shared).ret.2
          h a x n).home
        = (com.commit
            (com.clone (sel.clone (ralloc home size).2 shared self.s).home shared
              self.c).fresh h a x n).2.2 ∧
      (ValSelCommit.commit com (ValSelCommit.copy ralloc size sel com self home shared).ret.2
          h a x n).self.c
        = (com.commit
            (com.clone (sel.clone (ralloc home size).2 shared self.s).home shared
              self.c).fresh h a x n).2.1 ∧
      (ValSelCommit.commit com (ValSelCommit.copy ralloc size sel com self home shared).ret.2
          h a x n).self.s
        = (sel.clone (ralloc home size).2 shared self.s).fresh) ∧
    (ValSelCommit.notice sel com
        (ValSelCommit.copy ralloc size sel com self home shared).ret.2).ret
      = (sel.notice (sel.clone (ralloc home size).2 shared self.s).fresh ||
         com.notice
          (com.clone (sel.clone (ralloc home size).2 shared self.s).home shared
            self.c).fresh) := by
  refine ⟨rfl, rfl, rfl, rfl, rfl, rfl, rfl, ?_, fun _ _ => ⟨rfl, rfl, rfl⟩,
    fun _ _ _ _ => ⟨rfl, rfl, rfl, rfl⟩, rfl⟩
  intro hs hc
  have h1 : (ValSelCommit.copy ralloc size sel com self home shared).self
      = { s := (sel.clone (ralloc home size).2 shared self.s).orig,
          c := (com.clone (sel.clone (ralloc home size).2 shared self.s).home shared
            self.c).orig } := rfl
  rw [h1, hs, hc]

theorem valSelCommit_copy_components_witness :
    (ValSelCommit.copy Space.ralloc 16 ValSelMin ValCommitEq minEq
      (Space.single {1, 2, 3}) true).self = minEq ∧
    (ValSelCommit.copy Space.ralloc 16 ValSelMin ValCommitEq minEq
      (Space.single {1, 2, 3}) true).ret.1 = 0 ∧
    (ValSelCommit.copy Space.ralloc 16 ValSelMin ValCommitEq minEq
      (Space.single {1, 2, 3}) true).home.arena = [16] :=
  ⟨(valSelCommit_copy_components Space.ralloc 16 ValSelMin ValCommitEq minEq
      (Space.single {1, 2, 3}) true).2.2.2.2.2.2.2.1 rfl rfl,
   (valSelCommit_copy_components Space.ralloc 16 ValSelMin ValCommitEq minEq
      (Space.single {1, 2, 3}) true).1,
   congrArg Space.arena
    (valSelCommit_copy_components Space.ralloc 16 ValSelMin ValCommitEq minEq
      (Space.single {1, 2, 3}) true).2.2.2.1⟩

/-- C6: `ValSelCommit::notice()` returns true exactly when the selection object or the commit
object needs notice, false exactly when neither does, and leaves the object as it was. -/
theorem valSelCommit_notice_or {Sp View Val ME S C : Type} (sel : ValSel Sp View Val S)
    (com : ValCommit Sp View Val ME C) (self : ValSelCommit S C) :
    ((ValSelCommit.notice sel com self).ret = true
      ↔ sel.notice self.s = true ∨ com.notice self.c = true) ∧
    ((ValSelCommit.notice sel com self).ret = false
      ↔ sel.notice self.s = false ∧ com.notice self.c = false) ∧
    (ValSelCommit.notice sel com self).self = self := by
  simp [ValSelCommit.notice]

/-- C7: one call of `ValSelCommit::dispose(home)` calls `dispose(home)` on the selection
object and then on the commit object, once each: the space left is the one `c.dispose`
leaves when run on the space `s.dispose` leaves, the two objects are as their own
`dispose` leaves them, the calls recorded are the selection's `dispose` followed by the
commit's, and none of this depends on what `notice` answers. -/
theorem valSelCommit_dispose_both {Sp View Val ME S C : Type} (sel : ValSel Sp View Val S)
    (com : ValCommit Sp View Val ME C) (self : ValSelCommit S C) (home : Sp) :
    (ValSelCommit.dispose sel com self home).home
      = (com.dispose self.c (sel.dispose self.s home).2).2 ∧
    (ValSelCommit.dispose sel com self home).self.s = (sel.dispose self.s home).1 ∧
    (ValSelCommit.dispose sel com self home).self.c
      = (com.dispose self.c (sel.dispose self.s home).2).1 ∧
    (ValSelCommit.dispose sel.traced com.traced self (home, [])).home
      = ((ValSelCommit.dispose sel com self home).home,
          [MemberCall.selDispose, MemberCall.comDispose]) ∧
    (∀ (ns : S → Bool) (nc : C → Bool),
      (ValSelCommit.dispose { sel with notice := ns } { com with notice := nc } self home).home
        = (ValSelCommit.dispose sel com self home).home ∧
      (ValSelCommit.dispose { sel with notice := ns } { com with notice := nc } self home).self
        = (ValSelCommit.dispose sel com self home).self) :=
  ⟨rfl, rfl, rfl, rfl, fun _ _ => ⟨rfl, rfl⟩⟩

/-! ## Posting set relations -/

/-- C8: on a non-failed space, `rel` with `SOT_MINUS` raises `IllegalOperation("Set::rel")`
and posts no propagator, whatever the other arguments are; so does the overload with an
`IntSet` `z`, for every `z` within the set limits. -/
theorem rel_minus_illegal (max : Int) (P : RelOpPost) (home : Space) (x : List Nat) (y : Nat)
    (hf : home.failed = false) :
    (rel P home SetOpType.SOT_MINUS x y).thrown
      = some (Exception.IllegalOperation "Set::rel") ∧
    (rel P home SetOpType.SOT_MINUS x y).home.props = home.props ∧
    (∀ z : List Int, (∀ v ∈ z, -max ≤ v ∧ v ≤ max) →
      (relIntSet max P home SetOpType.SOT_MINUS x z y).thrown
        = some (Exception.IllegalOperation "Set::rel") ∧
      (relIntSet max P home SetOpType.SOT_MINUS x z y).home.props = home.props) := by
  rw [rel_of_not_failed P home _ x y hf]
  refine ⟨rfl, (ViewArray.ofArgs_frame home x).2.2, ?_⟩
  intro z hz
  rw [relIntSet_of_within max P home _ x z y hf hz]
  exact ⟨rfl, (ViewArray.ofArgs_frame home x).2.2⟩

theorem rel_minus_illegal_witness :
    (rel RelOpPost.simple Space.empty SetOpType.SOT_MINUS [0, 1] 2).thrown
      = some (Exception.IllegalOperation "Set::rel") ∧
    (relIntSet 1073741822 RelOpPost.simple Space.empty SetOpType.SOT_MINUS [0, 1] [1, 2]
      2).home.props = [] :=
  ⟨(rel_minus_illegal 1073741822 RelOpPost.simple Space.empty [0, 1] 2 rfl).1,
   ((rel_minus_illegal 1073741822 RelOpPost.simple Space.empty [0, 1] 2 rfl).2.2 [1, 2]
      (by decide)).2⟩

/-- C9, the claim as stated fails for the overload with an `IntSet`: on the empty (non-failed)
space, with `Set::Limits::max` = 1073741822, an unknown operation kind and
`z` = {1073741823}, the error raised is `OutOfLimits("Set::rel")`, not
`UnknownOperation("Set::rel")`. -/
theorem relIntSet_unknown_raises_out_of_limits :
    Space.empty.failed = false ∧
    (relIntSet 1073741822 RelOpPost.simple Space.empty SetOpType.unknown [0] [1073741823]
      1).thrown = some (Exception.OutOfLimits "Set::rel") ∧
    (relIntSet 1073741822 RelOpPost.simple Space.empty SetOpType.unknown [0] [1073741823]
      1).thrown ≠ some (Exception.UnknownOperation "Set::rel") := by
  decide

/-- C9, amended: on a non-failed space, `rel` with an operation kind that is none of the four
enumerators raises `UnknownOperation("Set::rel")`, which differs from the error raised
for `SOT_MINUS`, and posts no propagator; the overload with an `IntSet` `z` does the same
for every `z` within the set limits, and for a `z` outside them it raises
`OutOfLimits("Set::rel")` instead, leaving the space as it was. -/
theorem rel_unknown_operation (max : Int) (P : RelOpPost) (home : Space) (x : List Nat)
    (y : Nat) (hf : home.failed = false) :
    (rel P home SetOpType.unknown x y).thrown
      = some (Exception.UnknownOperation "Set::rel") ∧
    (rel P home SetOpType.unknown x y).thrown
      ≠ (rel P home SetOpType.SOT_MINUS x y).thrown ∧
    (rel P home SetOpType.unknown x y).home.props = home.props ∧
    (∀ z : List Int, (∀ v ∈ z, -max ≤ v ∧ v ≤ max) →
      (relIntSet max P home SetOpType.unknown x z y).thrown
        = some (Exception.UnknownOperation "Set::rel") ∧
      (relIntSet max P home SetOpType.unknown x z y).thrown
        ≠ (relIntSet max P home SetOpType.SOT_MINUS x z y).thrown ∧
      (relIntSet max P home SetOpType.unknown x z y).home.props = home.props) ∧
    (∀ z : List Int, ¬ (∀ v ∈ z, -max ≤ v ∧ v ≤ max) →
      (relIntSet max P home SetOpType.unknown x z y).thrown
        = some (Exception.OutOfLimits "Set::rel") ∧
      (relIntSet max P home SetOpType.unknown x z y).home = home) := by
  rw [rel_of_not_failed P home _ x y hf, rel_of_not_failed P home _ x y hf]
  refine ⟨rfl, by simp, (ViewArray.ofArgs_frame home x).2.2, ?_, ?_⟩
  · intro z hz
    rw [relIntSet_of_within max P home _ x z y hf hz,
      relIntSet_of_within max P home _ x z y hf hz]
    exact ⟨rfl, by simp, (ViewArray.ofArgs_frame home x).2.2⟩
  · intro z hz
    rw [relIntSet_of_outside max P home _ x z y hf hz]
    exact ⟨rfl, rfl⟩

theorem rel_unknown_operation_witness :
    (rel RelOpPost.simple Space.empty SetOpType.unknown [0, 1] 2).thrown
      = some (Exception.UnknownOperation "Set::rel") ∧
    (relIntSet 1073741822 RelOpPost.simple Space.empty SetOpType.unknown [0, 1] [1, 2]
      2).thrown = some (Exception.UnknownOperation "Set::rel") ∧
    (relIntSet 1073741822 RelOpPost.simple Space.empty SetOpType.unknown [0, 1] [1073741823]
      2).thrown = some (Exception.OutOfLimits "Set::rel") :=
  ⟨(rel_unknown_operation 1073741822 RelOpPost.simple Space.empty [0, 1] 2 rfl).1,
   ((rel_unknown_operation 1073741822 RelOpPost.simple Space.empty [0, 1] 2 rfl).2.2.2.1
      [1, 2] (by decide)).1,
   ((rel_unknown_operation 1073741822 RelOpPost.simple Space.empty [0, 1] 2 rfl).2.2.2.2
      [1073741823] (by decide)).1⟩

/-- C10, the claim as stated fails: on the empty (non-failed) space, `rel` with `SOT_MINUS`
on an array of one set variable raises `IllegalOperation("Set::rel")` with the space
already changed: the block of the view array built from `x` has been allocated in it. -/
theorem rel_minus_has_allocated_view_array :
    Space.empty.failed = false ∧
    (rel RelOpPost.simple Space.empty SetOpType.SOT_MINUS [0] 1).thrown
      = some (Exception.IllegalOperation "Set::rel") ∧
    (rel RelOpPost.simple Space.empty SetOpType.SOT_MINUS [0] 1).home.arena = [1] ∧
    (rel RelOpPost.simple Space.empty SetOpType.SOT_MINUS [0] 1).home ≠ Space.empty := by
  decide

/-- C10, amended: when `rel` is called on a non-failed space with `SOT_MINUS` or an unknown
operation kind (and, in the overload with an `IntSet`, a `z` within the set limits), the
error is raised before anything is posted: at that moment the space is the one the
construction of the view array from `x` has left, with the failed flag, the variables
and the propagators as they were and the arena grown by at most the block of that array
(by nothing for an empty `x`).  In the overload with an `IntSet`, for a `z` outside the
set limits an error is raised with the space as it was. -/
theorem rel_error_before_posting (max : Int) (P : RelOpPost) (home : Space) (op : SetOpType)
    (x : List Nat) (y : Nat) (hf : home.failed = false)
    (hop : op = SetOpType.SOT_MINUS ∨ op = SetOpType.unknown) :
    ((rel P home op x y).thrown ≠ none ∧
      (rel P home op x y).home = (ViewArray.ofArgs home x).2 ∧
      (rel P home op x y).home.failed = false ∧
      (rel P home op x y).home.vars = home.vars ∧
      (rel P home op x y).home.props = home.props ∧
      (rel P home op x y).home.arena
        = (if 0 < x.length then home.arena ++ [x.length] else home.arena)) ∧
    (∀ z : List Int, (∀ v ∈ z, -max ≤ v ∧ v ≤ max) →
      (relIntSet max P home op x z y).thrown ≠ none ∧
      (relIntSet max P home op x z y).home = (ViewArray.ofArgs home x).2 ∧
      (relIntSet max P home op x z y).home.failed = false ∧
      (relIntSet max P home op x z y).home.vars = home.vars ∧
      (relIntSet max P home op x z y).home.props = home.props ∧
      (relIntSet max P home op x z y).home.arena
        = (if 0 < x.length then home.arena ++ [x.length] else home.arena)) ∧
    (∀ z : List Int, ¬ (∀ v ∈ z, -max ≤ v ∧ v ≤ max) →
      (relIntSet max P home op x z y).thrown ≠ none ∧
      (relIntSet max P home op x z y).home = home) := by
  have harena : (ViewArray.ofArgs home x).2.arena
      = (if 0 < x.length then home.arena ++ [x.length] else home.arena) := by
    unfold ViewArray.ofArgs Space.ralloc
    split <;> rfl
  have hfr := ViewArray.ofArgs_frame home x
  refine ⟨?_, ?_, ?_⟩
  · rw [rel_of_not_failed P home op x y hf]
    rcases hop with h | h <;> subst h <;>
      exact ⟨by simp, rfl, hfr.1.trans hf, hfr.2.1, hfr.2.2, harena⟩
  · intro z hz
    rw [relIntSet_of_within max P home op x z y hf hz]
    rcases hop with h | h <;> subst h <;>
      exact ⟨by simp, rfl, hfr.1.trans hf, hfr.2.1, hfr.2.2, harena⟩
  · intro z hz
    rw [relIntSet_of_outside max P home op x z y hf hz]
    exact ⟨by simp, rfl⟩

theorem rel_error_before_posting_witness :
    (rel RelOpPost.simple Space.empty SetOpType.SOT_MINUS [0, 1] 2).home.props = [] ∧
    (rel RelOpPost.simple Space.empty SetOpType.SOT_MINUS [0, 1] 2).home.arena = [2] ∧
    (relIntSet 1073741822 RelOpPost.simple Space.empty SetOpType.SOT_MINUS [0, 1] [1, 2]
      2).home.arena = [2] ∧
    (relIntSet 1073741822 RelOpPost.simple Space.empty SetOpType.SOT_MINUS [0, 1] [1073741823]
      2).home = Space.empty :=
  ⟨(rel_error_before_posting 1073741822 RelOpPost.simple Space.empty SetOpType.SOT_MINUS
      [0, 1] 2 rfl (Or.inl rfl)).1.2.2.2.2.1,
   (rel_error_before_posting 1073741822 RelOpPost.simple Space.empty SetOpType.SOT_MINUS
      [0, 1] 2 rfl (Or.inl rfl)).1.2.2.2.2.2,
   ((rel_error_before_posting 1073741822 RelOpPost.simple Space.empty SetOpType.SOT_MINUS
      [0, 1] 2 rfl (Or.inl rfl)).2.1 [1, 2] (by decide)).2.2.2.2.2,
   ((rel_error_before_posting 1073741822 RelOpPost.simple Space.empty SetOpType.SOT_MINUS
      [0, 1] 2 rfl (Or.inl rfl)).2.2 [1073741823] (by decide)).2⟩

/-- C11: on a non-failed space, for every operation kind (`SOT_MINUS` and unknown kinds
included), `rel(home, op, x, z, y)` with a `z` outside the set limits raises the
`OutOfLimits("Set::rel")` of `Set::Limits::check`: the space is left exactly as it was (no
view array built, nothing posted), and the error is neither `IllegalOperation` nor
`UnknownOperation`. -/
theorem relIntSet_out_of_limits_first (max : Int) (P : RelOpPost) (home : Space)
    (op : SetOpType) (x : List Nat) (z : List Int) (y : Nat) (hf : home.failed = false)
    (hz : ¬ (∀ v ∈ z, -max ≤ v ∧ v ≤ max)) :
    (relIntSet max P home op x z y).thrown = some (Exception.OutOfLimits "Set::rel") ∧
    (relIntSet max P home op x z y).thrown = Set.Limits.check max z "Set::rel" ∧
    (relIntSet max P home op x z y).home = home ∧
    (relIntSet max P home op x z y).home.arena = home.arena ∧
    (relIntSet max P home op x z y).home.props = home.props ∧
    (relIntSet max P home op x z y).thrown ≠ some (Exception.IllegalOperation "Set::rel") ∧
    (relIntSet max P home op x z y).thrown ≠ some (Exception.UnknownOperation "Set::rel") := by
  have hc : Set.Limits.check max z "Set::rel" = some (Exception.OutOfLimits "Set::rel") := by
    simp only [Set.Limits.check, ite_eq_right_iff, List.all_eq_true, decide_eq_true_eq]
    intro h
    exact absurd h hz
  rw [relIntSet_of_outside max P home op x z y hf hz, hc]
  exact ⟨rfl, rfl, rfl, rfl, rfl, by simp, by simp⟩

theorem relIntSet_out_of_limits_first_witness :
    (relIntSet 1073741822 RelOpPost.simple Space.empty SetOpType.SOT_MINUS [0, 1]
      [1073741823] 2).thrown = some (Exception.OutOfLimits "Set::rel") ∧
    (relIntSet 1073741822 RelOpPost.simple Space.empty SetOpType.SOT_MINUS [0, 1]
      [1073741823] 2).home = Space.empty :=
  ⟨(relIntSet_out_of_limits_first 1073741822 RelOpPost.simple Space.empty SetOpType.SOT_MINUS
      [0, 1] [1073741823] 2 rfl (by decide)).1,
   (relIntSet_out_of_limits_first 1073741822 RelOpPost.simple Space.empty SetOpType.SOT_MINUS
      [0, 1] [1073741823] 2 rfl (by decide)).2.2.1⟩

/-- C12, the claim as stated fails: on a failed space, `rel` (either overload; here with
`SOT_UNION`, and with `SOT_MINUS`, which on a non-failed space is an error) raises no
error at all. -/
theorem rel_on_failed_space_raises_nothing :
    Space.empty.fail.failed = true ∧
    (rel RelOpPost.simple Space.empty.fail SetOpType.SOT_UNION [0, 1] 2).thrown = none ∧
    (rel RelOpPost.simple Space.empty.fail SetOpType.SOT_MINUS [0, 1] 2).thrown = none ∧
    (relIntSet 1073741822 RelOpPost.simple Space.empty.fail SetOpType.SOT_UNION [0, 1] [1, 2]
      2).thrown = none ∧
    (relIntSet 1073741822 RelOpPost.simple Space.empty.fail SetOpType.SOT_MINUS [0, 1] [1, 2]
      2).thrown = none := by
  decide

/-- C12, amended: on an already-failed space, `rel` (either overload, any operation kind, any
arguments) raises no error: it returns normally without doing anything to the space, and
what the caller can see of the failure is the failed status of the space, which is still
set. -/
theorem rel_on_failed_space_returns (max : Int) (P : RelOpPost) (home : Space)
    (op : SetOpType) (x : List Nat) (z : List Int) (y : Nat) (hf : home.failed = true) :
    (rel P home op x y).thrown = none ∧
    (rel P home op x y).home.isFailed = true ∧
    (relIntSet max P home op x z y).thrown = none ∧
    (relIntSet max P home op x z y).home.isFailed = true ∧
    (rel P home op x y).home = home ∧
    (relIntSet max P home op x z y).home = home := by
  rw [rel_of_failed P home op x y hf, relIntSet_of_failed max P home op x z y hf]
  exact ⟨rfl, hf, rfl, hf, rfl, rfl⟩

theorem rel_on_failed_space_returns_witness :
    (rel RelOpPost.simple Space.empty.fail SetOpType.unknown [0, 1] 2).thrown = none ∧
    (relIntSet 1073741822 RelOpPost.simple Space.empty.fail SetOpType.SOT_INTER [0, 1]
      [1, 2] 2).home.isFailed = true :=
  ⟨(rel_on_failed_space_returns 1073741822 RelOpPost.simple Space.empty.fail SetOpType.unknown
      [0, 1] [1, 2] 2 rfl).1,
   (rel_on_failed_space_returns 1073741822 RelOpPost.simple Space.empty.fail
      SetOpType.SOT_INTER [0, 1] [1, 2] 2 rfl).2.2.2.1⟩

/-- C13: on an already-failed space, for every operation kind and all arguments, `rel`
(either overload) leaves the space exactly as it was: the arena has no block for a view
array, no propagator is added, the space is still failed, and no limit check is made on
`z`: for a `z` outside the set limits, for which `Set::Limits::check` raises
`OutOfLimits`, the call returns without an error all the same. -/
theorem rel_on_failed_space_noop (max : Int) (P : RelOpPost) (home : Space)
    (op : SetOpType) (x : List Nat) (z : List Int) (y : Nat) (hf : home.failed = true) :
    (rel P home op x y).home = home ∧
    (rel P home op x y).home.arena = home.arena ∧
    (rel P home op x y).home.props = home.props ∧
    (rel P home op x y).home.failed = true ∧
    (relIntSet max P home op x z y).home = home ∧
    (relIntSet max P home op x z y).home.arena = home.arena ∧
    (relIntSet max P home op x z y).home.props = home.props ∧
    (relIntSet max P home op x z y).home.failed = true ∧
    (relIntSet max P home op x z y).thrown = none ∧
    (¬ (∀ v ∈ z, -max ≤ v ∧ v ≤ max) →
      Set.Limits.check max z "Set::rel" = some (Exception.OutOfLimits "Set::rel") ∧
      (relIntSet max P home op x z y).thrown ≠ Set.Limits.check max z "Set::rel") := by
  rw [rel_of_failed P home op x y hf, relIntSet_of_failed max P home op x z y hf]
  refine ⟨rfl, rfl, rfl, hf, rfl, rfl, rfl, hf, rfl, ?_⟩
  intro hz
  have hc : Set.Limits.check max z "Set::rel" = some (Exception.OutOfLimits "Set::rel") := by
    simp only [Set.Limits.check, ite_eq_right_iff, List.all_eq_true, decide_eq_true_eq]
    intro h
    exact absurd h hz
  rw [hc]
  exact ⟨rfl, by simp⟩

theorem rel_on_failed_space_noop_witness :
    (rel RelOpPost.simple Space.empty.fail SetOpType.SOT_UNION [0, 1] 2).home
      = Space.empty.fail ∧
    (relIntSet 1073741822 RelOpPost.simple Space.empty.fail SetOpType.SOT_UNION [0, 1]
      [1073741823] 2).thrown = none ∧
    Set.Limits.check 1073741822 [1073741823] "Set::rel"
      = some (Exception.OutOfLimits "Set::rel") :=
  ⟨(rel_on_failed_space_noop 1073741822 RelOpPost.simple Space.empty.fail SetOpType.SOT_UNION
      [0, 1] [1073741823] 2 rfl).1,
   (rel_on_failed_space_noop 1073741822 RelOpPost.simple Space.empty.fail SetOpType.SOT_UNION
      [0, 1] [1073741823] 2 rfl).2.2.2.2.2.2.2.2.1,
   ((rel_on_failed_space_noop 1073741822 RelOpPost.simple Space.empty.fail SetOpType.SOT_UNION
      [0, 1] [1073741823] 2 rfl).2.2.2.2.2.2.2.2.2 (by decide)).1⟩

/-- C14: on a non-failed space, for `SOT_UNION`, `SOT_DUNION` and `SOT_INTER`, `rel` (either
overload, `z` within the set limits) raises no exception whatever the propagator's `post`
answers: when the `post` returns `ES_FAILED`, `rel` returns with the space marked failed;
when it does not, `rel` returns with the space exactly as the `post` left it, so the
failed flag is clear whenever the `post` left it clear.  The `post` is the one of `UnionN`,
`PartitionN`, `IntersectionN` respectively, run on the space in which the view array of
`x` has been built. -/
theorem rel_reports_post_failure_by_status (max : Int) (P : RelOpPost) (home : Space)
    (x : List Nat) (z : List Int) (y : Nat) (hf : home.failed = false)
    (hz : ∀ v ∈ z, -max ≤ v ∧ v ≤ max) :
    (rel P home SetOpType.SOT_UNION x y).thrown = none ∧
    ((P.unionN (ViewArray.ofArgs home x).2 (ViewArray.ofArgs home x).1 y).1 = ExecStatus.ES_FAILED → (rel P home SetOpType.SOT_UNION x y).home.failed = true) ∧
    ((P.unionN (ViewArray.ofArgs home x).2 (ViewArray.ofArgs home x).1 y).1 ≠ ExecStatus.ES_FAILED → (rel P home SetOpType.SOT_UNION x y).home = (P.unionN (ViewArray.ofArgs home x).2 (ViewArray.ofArgs home x).1 y).2) ∧
    ((P.unionN (ViewArray.ofArgs home x).2 (ViewArray.ofArgs home x).1 y).1 ≠ ExecStatus.ES_FAILED → (P.unionN (ViewArray.ofArgs home x).2 (ViewArray.ofArgs home x).1 y).2.failed = false →
      (rel P home SetOpType.SOT_UNION x y).home.failed = false) ∧
    (rel P home SetOpType.SOT_DUNION x y).thrown = none ∧
    ((P.partitionN (ViewArray.ofArgs home x).2 (ViewArray.ofArgs home x).1 y).1 = ExecStatus.ES_FAILED → (rel P home SetOpType.SOT_DUNION x y).home.failed = true) ∧
    ((P.partitionN (ViewArray.ofArgs home x).2 (ViewArray.ofArgs home x).1 y).1 ≠ ExecStatus.ES_FAILED → (rel P home SetOpType.SOT_DUNION x y).home = (P.partitionN (ViewArray.ofArgs home x).2 (ViewArray.ofArgs home x).1 y).2) ∧
    ((P.partitionN (ViewArray.ofArgs home x).2 (ViewArray.ofArgs home x).1 y).1 ≠ ExecStatus.ES_FAILED → (P.partitionN (ViewArray.ofArgs home x).2 (ViewArray.ofArgs home x).1 y).2.failed = false →
      (rel P home SetOpType.SOT_DUNION x y).home.failed = false) ∧
    (rel P home SetOpType.SOT_INTER x y).thrown = none ∧
    ((P.intersectionN (ViewArray.ofArgs home x).2 (ViewArray.ofArgs home x).1 y).1 = ExecStatus.ES_FAILED → (rel P home SetOpType.SOT_INTER x y).home.failed = true) ∧
    ((P.intersectionN (ViewArray.ofArgs home x).2 (ViewArray.ofArgs home x).1 y).1 ≠ ExecStatus.ES_FAILED → (rel P home SetOpType.SOT_INTER x y).home = (P.intersectionN (ViewArray.ofArgs home x).2 (ViewArray.ofArgs home x).1 y).2) ∧
    ((P.intersectionN (ViewArray.ofArgs home x).2 (ViewArray.ofArgs home x).1 y).1 ≠ ExecStatus.ES_FAILED → (P.intersectionN (ViewArray.ofArgs home x).2 (ViewArray.ofArgs home x).1 y).2.failed = false →
      (rel P home SetOpType.SOT_INTER x y).home.failed = false) ∧
    (relIntSet max P home SetOpType.SOT_UNION x z y).thrown = none ∧
    ((P.unionNz (ViewArray.ofArgs home x).2 (ViewArray.ofArgs home x).1 z y).1 = ExecStatus.ES_FAILED → (relIntSet max P home SetOpType.SOT_UNION x z y).home.failed = true) ∧
    ((P.unionNz (ViewArray.ofArgs home x).2 (ViewArray.ofArgs home x).1 z y).1 ≠ ExecStatus.ES_FAILED → (relIntSet max P home SetOpType.SOT_UNION x z y).home = (P.unionNz (ViewArray.ofArgs home x).2 (ViewArray.ofArgs home x).1 z y).2) ∧
    ((P.unionNz (ViewArray.ofArgs home x).2 (ViewArray.ofArgs home x).1 z y).1 ≠ ExecStatus.ES_FAILED → (P.unionNz (ViewArray.ofArgs home x).2 (ViewArray.ofArgs home x).1 z y).2.failed = false →
      (relIntSet max P home SetOpType.SOT_UNION x z y).home.failed = false) ∧
    (relIntSet max P home SetOpType.SOT_DUNION x z y).thrown = none ∧
    ((P.partitionNz (ViewArray.ofArgs home x).2 (ViewArray.ofArgs home x).1 z y).1 = ExecStatus.ES_FAILED → (relIntSet max P home SetOpType.SOT_DUNION x z y).home.failed = true) ∧
    ((P.partitionNz (ViewArray.ofArgs home x).2 (ViewArray.ofArgs home x).1 z y).1 ≠ ExecStatus.ES_FAILED → (relIntSet max P home SetOpType.SOT_DUNION x z y).home = (P.partitionNz (ViewArray.ofArgs home x).2 (ViewArray.ofArgs home x).1 z y).2) ∧
    ((P.partitionNz (ViewArray.ofArgs home x).2 (ViewArray.ofArgs home x).1 z y).1 ≠ ExecStatus.ES_FAILED → (P.partitionNz (ViewArray.ofArgs home x).2 (ViewArray.ofArgs home x).1 z y).2.failed = false →
      (relIntSet max P home SetOpType.SOT_DUNION x z y).home.failed = false) ∧
    (relIntSet max P home SetOpType.SOT_INTER x z y).thrown = none ∧
    ((P.intersectionNz (ViewArray.ofArgs home x).2 (ViewArray.ofArgs home x).1 z y).1 = ExecStatus.ES_FAILED → (relIntSet max P home SetOpType.SOT_INTER x z y).home.failed = true) ∧
    ((P.intersectionNz (ViewArray.ofArgs home x).2 (ViewArray.ofArgs home x).1 z y).1 ≠ ExecStatus.ES_FAILED → (relIntSet max P home SetOpType.SOT_INTER x z y).home = (P.intersectionNz (ViewArray.ofArgs home x).2 (ViewArray.ofArgs home x).1 z y).2) ∧
    ((P.intersectionNz (ViewArray.ofArgs home x).2 (ViewArray.ofArgs home x).1 z y).1 ≠ ExecStatus.ES_FAILED → (P.intersectionNz (ViewArray.ofArgs home x).2 (ViewArray.ofArgs home x).1 z y).2.failed = false →
      (relIntSet max P home SetOpType.SOT_INTER x z y).home.failed = false) := by
  have key : ∀ r : ExecStatus × Space,
      (GECODE_ES_FAIL r).thrown = none ∧
      (r.1 = ExecStatus.ES_FAILED → (GECODE_ES_FAIL r).home.failed = true) ∧
      (r.1 ≠ ExecStatus.ES_FAILED → (GECODE_ES_FAIL r).home = r.2) ∧
      (r.1 ≠ ExecStatus.ES_FAILED → r.2.failed = false →
        (GECODE_ES_FAIL r).home.failed = false) := by
    intro r
    have h := GECODE_ES_FAIL_spec r
    exact ⟨h.1, h.2.1, h.2.2, fun hne hcl => by rw [h.2.2 hne]; exact hcl⟩
  rw [rel_of_not_failed P home _ x y hf, rel_of_not_failed P home _ x y hf,
    rel_of_not_failed P home _ x y hf, relIntSet_of_within max P home _ x z y hf hz,
    relIntSet_of_within max P home _ x z y hf hz, relIntSet_of_within max P home _ x z y hf hz]
  have h1 := key (P.unionN (ViewArray.ofArgs home x).2 (ViewArray.ofArgs home x).1 y)
  have h2 := key (P.partitionN (ViewArray.ofArgs home x).2 (ViewArray.ofArgs home x).1 y)
  have h3 := key (P.intersectionN (ViewArray.ofArgs home x).2 (ViewArray.ofArgs home x).1 y)
  have h4 := key (P.unionNz (ViewArray.ofArgs home x).2 (ViewArray.ofArgs home x).1 z y)
  have h5 := key (P.partitionNz (ViewArray.ofArgs home x).2 (ViewArray.ofArgs home x).1 z y)
  have h6 := key (P.intersectionNz (ViewArray.ofArgs home x).2 (ViewArray.ofArgs home x).1 z y)
  exact ⟨h1.1, h1.2.1, h1.2.2.1, h1.2.2.2, h2.1, h2.2.1, h2.2.2.1, h2.2.2.2,
    h3.1, h3.2.1, h3.2.2.1, h3.2.2.2, h4.1, h4.2.1, h4.2.2.1, h4.2.2.2,
    h5.1, h5.2.1, h5.2.2.1, h5.2.2.2, h6.1, h6.2.1, h6.2.2.1, h6.2.2.2⟩

theorem rel_reports_post_failure_by_status_witness :
    (rel RelOpPost.failing Space.empty SetOpType.SOT_UNION [0, 1] 2).thrown = none ∧
    (rel RelOpPost.failing Space.empty SetOpType.SOT_UNION [0, 1] 2).home.failed = true ∧
    (rel RelOpPost.simple Space.empty SetOpType.SOT_UNION [0, 1] 2).home.failed = false :=
  ⟨(rel_reports_post_failure_by_status 1073741822 RelOpPost.failing Space.empty [0, 1] [1, 2]
      2 rfl (by decide)).1,
   (rel_reports_post_failure_by_status 1073741822 RelOpPost.failing Space.empty [0, 1] [1, 2]
      2 rfl (by decide)).2.1 rfl,
   (rel_reports_post_failure_by_status 1073741822 RelOpPost.simple Space.empty [0, 1] [1, 2]
      2 rfl (by decide)).2.2.2.1 (by decide) (by decide)⟩

/-- C15: for all Boolean expressions `l` and `r`, `imp(l, r)` is the node of type `NT_OR`
whose left operand is the `NT_NOT` expression built from `l` and whose right operand is
`r`, that is `(!l) || r`; under every truth valuation it is true exactly when `l` is false
or `r` is true. -/
theorem imp_is_or_of_not {Node : Type} (B : BoolExprCtors Node) (l r : BoolExpr Node) :
    imp B l r
      = B.binary (B.unary l BoolExpr.NodeType.NT_NOT) BoolExpr.NodeType.NT_OR r ∧
    imp B l r = operatorOr B (operatorNot B l) r ∧
    (∀ v : BoolExpr Node → Bool, B.Valuation v →
      v (imp B l r) = (!v l || v r) ∧
      (v (imp B l r) = true ↔ v l = false ∨ v r = true)) := by
  refine ⟨rfl, rfl, ?_⟩
  intro v hv
  have h : v (imp B l r) = (!v l || v r) := by
    unfold imp
    rw [hv.or, hv.not]
  refine ⟨h, ?_⟩
  rw [h]
  cases v l <;> cases v r <;> simp

theorem imp_is_or_of_not_witness :
    BoolTree.value (fun x => decide (x = 0))
        (imp BoolTree.ctors { n := BoolTree.var 0 } { n := BoolTree.var 1 }).n = false ∧
    BoolTree.value (fun _ => false)
        (imp BoolTree.ctors { n := BoolTree.var 0 } { n := BoolTree.var 1 }).n = true ∧
    (imp BoolTree.ctors { n := BoolTree.var 0 } { n := BoolTree.var 1 }).n
      = BoolTree.node2 (BoolTree.node1 BoolExpr.NodeType.NT_NOT (BoolTree.var 0))
          BoolExpr.NodeType.NT_OR (BoolTree.var 1) :=
  ⟨((imp_is_or_of_not BoolTree.ctors { n := BoolTree.var 0 } { n := BoolTree.var 1 }).2.2
      (fun e => BoolTree.value (fun x => decide (x = 0)) e.n)
      (BoolTree.valuation (fun x => decide (x = 0)))).1,
   ((imp_is_or_of_not BoolTree.ctors { n := BoolTree.var 0 } { n := BoolTree.var 1 }).2.2
      (fun e => BoolTree.value (fun _ => false) e.n)
      (BoolTree.valuation (fun _ => false))).1,
   congrArg BoolExpr.n
    (imp_is_or_of_not BoolTree.ctors { n := BoolTree.var 0 } { n := BoolTree.var 1 }).1⟩

/-- C16: for all Boolean expressions `l` and `r`, `l ^ r` is the `NT_NOT` expression built
from the node of type `NT_EQV` over `l` and `r`, that is `!eqv(l, r)`; under every truth
valuation it is true exactly when `l` and `r` have different truth values, and `l ^ r`
and `r ^ l` have the same truth value. -/
theorem xor_is_not_of_eqv {Node : Type} (B : BoolExprCtors Node) (l r : BoolExpr Node) :
    operatorXor B l r
      = B.unary (B.binary l BoolExpr.NodeType.NT_EQV r) BoolExpr.NodeType.NT_NOT ∧
    operatorXor B l r = operatorNot B (eqv B l r) ∧
    (∀ v : BoolExpr Node → Bool, B.Valuation v →
      v (operatorXor B l r) = (v l != v r) ∧
      (v (operatorXor B l r) = true ↔ v l ≠ v r) ∧
      v (operatorXor B l r) = v (operatorXor B r l)) := by
  refine ⟨rfl, rfl, ?_⟩
  intro v hv
  have h : ∀ a b : BoolExpr Node, v (operatorXor B a b) = (v a != v b) := by
    intro a b
    unfold operatorXor
    rw [hv.not, hv.eqv]
    cases v a <;> cases v b <;> rfl
  refine ⟨h l r, ?_, ?_⟩
  · rw [h]
    cases v l <;> cases v r <;> simp
  · rw [h, h]
    cases v l <;> cases v r <;> rfl

theorem xor_is_not_of_eqv_witness :
    BoolTree.value (fun x => decide (x = 0))
        (operatorXor BoolTree.ctors { n := BoolTree.var 0 } { n := BoolTree.var 1 }).n
      = true ∧
    BoolTree.value (fun _ => true)
        (operatorXor BoolTree.ctors { n := BoolTree.var 0 } { n := BoolTree.var 1 }).n
      = false ∧
    (operatorXor BoolTree.ctors { n := BoolTree.var 0 } { n := BoolTree.var 1 }).n
      = BoolTree.node1 BoolExpr.NodeType.NT_NOT
          (BoolTree.node2 (BoolTree.var 0) BoolExpr.NodeType.NT_EQV (BoolTree.var 1)) :=
  ⟨((xor_is_not_of_eqv BoolTree.ctors { n := BoolTree.var 0 } { n := BoolTree.var 1 }).2.2
      (fun e => BoolTree.value (fun x => decide (x = 0)) e.n)
      (BoolTree.valuation (fun x => decide (x = 0)))).1,
   ((xor_is_not_of_eqv BoolTree.ctors { n := BoolTree.var 0 } { n := BoolTree.var 1 }).2.2
      (fun e => BoolTree.value (fun _ => true) e.n)
      (BoolTree.valuation (fun _ => true))).1,
   congrArg BoolExpr.n
    (xor_is_not_of_eqv BoolTree.ctors { n := BoolTree.var 0 } { n := BoolTree.var 1 }).1⟩

/-- C19: both `BoolExpr::post` members build the negation normal form of the node of the
expression with the negation flag `false` and run its `post`: the result and the space
are those of `NNF::nnf(r, n, false)->post(...)` with `icl`, `pk` (and `t`) as given, on
the space of the caller; the calls recorded are one `nnf` with flag `false` followed by
that one `post`; what `nnf` would do with flag `true` has no influence; the expression
is left as it was.  The function `post(home, e, icl, pk)` is `e.post(home, icl, pk)`. -/
theorem boolExpr_post_nnf_not_negated {Sp Region Node NNF BoolVar ICL PK : Type}
    (N : NNFClass Sp Region Node NNF BoolVar ICL PK) (e : BoolExpr Node) (home : Sp)
    (t : Bool) (icl : ICL) (pk : PK) :
    (BoolExpr.post N e home icl pk).ret
      = (N.post (N.nnf (N.region home).1 e.n false).1 (N.region home).2 icl pk).1 ∧
    (BoolExpr.post N e home icl pk).home
      = N.release (N.nnf (N.region home).1 e.n false).2
          (N.post (N.nnf (N.region home).1 e.n false).1 (N.region home).2 icl pk).2 ∧
    (BoolExpr.post N e home icl pk).self = e ∧
    (BoolExpr.postT N e home t icl pk).home
      = N.release (N.nnf (N.region home).1 e.n false).2
          (N.postT (N.nnf (N.region home).1 e.n false).1 (N.region home).2 t icl pk) ∧
    (BoolExpr.postT N e home t icl pk).self = e ∧
    (BoolExpr.post N.traced e (home, []) icl pk).home.2
      = [NNFCall.nnf e.n false,
         NNFCall.post (N.nnf (N.region home).1 e.n false).1 icl pk] ∧
    (BoolExpr.postT N.traced e (home, []) t icl pk).home.2
      = [NNFCall.nnf e.n false,
         NNFCall.postT (N.nnf (N.region home).1 e.n false).1 t icl pk] ∧
    (∀ other : Region → Node → NNF × Region,
      BoolExpr.post { N with nnf := fun r n neg => if neg then other r n else N.nnf r n false }
          e home icl pk
        = BoolExpr.post N e home icl pk ∧
      BoolExpr.postT { N with nnf := fun r n neg => if neg then other r n else N.nnf r n false }
          e home t icl pk
        = BoolExpr.postT N e home t icl pk) ∧
    postExpr N home e icl pk = BoolExpr.post N e home icl pk :=
  ⟨rfl, rfl, rfl, rfl, rfl, rfl, rfl, fun _ => ⟨rfl, rfl⟩, rfl⟩

/-- C20: for every space (failed or not), Boolean variable `b`, consistency level and
propagator kind, `post(home, b, icl, pk)` returns `b` itself and the space as it was: the
failed flag, the variables, the propagators and the arena are unchanged. -/
theorem postVar_returns_the_variable {Sp BoolVar ICL PK : Type} (home : Sp) (space : Space)
    (b : BoolVar) (icl : ICL) (pk : PK) :
    (postVar home b icl pk).1 = b ∧
    (postVar home b icl pk).2 = home ∧
    (postVar space b icl pk).1 = b ∧
    (postVar space b icl pk).2 = space ∧
    (postVar space b icl pk).2.failed = space.failed ∧
    (postVar space b icl pk).2.vars = space.vars ∧
    (postVar space b icl pk).2.props = space.props ∧
    (postVar space b icl pk).2.arena = space.arena :=
  ⟨rfl, rfl, rfl, rfl, rfl, rfl, rfl, rfl⟩

/-- C21, the claim as stated fails: with `use` an unsigned integer of 32 bits, the copy of
an expression whose node has the use count 4294967295, the largest value of the type,
leaves that node with the use count 0: the count has not increased by one. -/
theorem boolExpr_copy_use_wraps :
    (BoolExpr.copy 32
        [{ use := 4294967295, t := BoolExpr.NodeType.NT_VAR, l := none, r := none }]
        { n := 0 }).1.n = 0 ∧
    (BoolExpr.copy 32
        [{ use := 4294967295, t := BoolExpr.NodeType.NT_VAR, l := none, r := none }]
        { n := 0 }).2
      = [{ use := 0, t := BoolExpr.NodeType.NT_VAR, l := none, r := none }] ∧
    ((BoolExpr.copy 32
        [{ use := 4294967295, t := BoolExpr.NodeType.NT_VAR, l := none, r := none }]
        { n := 0 }).2[0]?).map BoolExpr.Node.use ≠ some (4294967295 + 1) := by
  decide

/-- C21, amended: copy-constructing a `BoolExpr` from an expression `e` that refers to the
node `nd` makes the copy refer to the very same node as `e` and increments the use count
of that node modulo `2 ^ w`, `w` the width of the counter: the count increases by exactly
one whenever it is below the largest value of its type.  The type and the operands of
the node, every other node (its use count included) and the number of nodes are
unchanged. -/
theorem boolExpr_copy_shares_node (w : Nat) (heap : List BoolExpr.Node) (e : BoolExpr Nat)
    (nd : BoolExpr.Node) (h : heap[e.n]? = some nd) :
    (BoolExpr.copy w heap e).1.n = e.n ∧
    (BoolExpr.copy w heap e).2[e.n]? = some { nd with use := (nd.use + 1) % 2 ^ w } ∧
    (nd.use + 1 < 2 ^ w →
      (BoolExpr.copy w heap e).2[e.n]? = some { nd with use := nd.use + 1 } ∧
      ((BoolExpr.copy w heap e).2[e.n]?).map BoolExpr.Node.use = some (nd.use + 1)) ∧
    ((BoolExpr.copy w heap e).2[e.n]?).map BoolExpr.Node.t = some nd.t ∧
    ((BoolExpr.copy w heap e).2[e.n]?).map BoolExpr.Node.l = some nd.l ∧
    ((BoolExpr.copy w heap e).2[e.n]?).map BoolExpr.Node.r = some nd.r ∧
    (∀ q : Nat, q ≠ e.n → (BoolExpr.copy w heap e).2[q]? = heap[q]?) ∧
    (BoolExpr.copy w heap e).2.length = heap.length := by
  have hs := BoolExpr.Node.incUse_self w heap e.n nd h
  refine ⟨rfl, hs, ?_, ?_, ?_, ?_, ?_, BoolExpr.Node.incUse_length w heap e.n⟩
  · intro hlt
    have hm : (nd.use + 1) % 2 ^ w = nd.use + 1 := Nat.mod_eq_of_lt hlt
    have hs' : (BoolExpr.copy w heap e).2[e.n]? = some { nd with use := nd.use + 1 } := by
      rw [← hm]
      exact hs
    exact ⟨hs', by rw [hs']; rfl⟩
  · show ((BoolExpr.Node.incUse w heap e.n)[e.n]?).map BoolExpr.Node.t = some nd.t
    rw [hs]
    rfl
  · show ((BoolExpr.Node.incUse w heap e.n)[e.n]?).map BoolExpr.Node.l = some nd.l
    rw [hs]
    rfl
  · show ((BoolExpr.Node.incUse w heap e.n)[e.n]?).map BoolExpr.Node.r = some nd.r
    rw [hs]
    rfl
  · intro q hq
    exact BoolExpr.Node.incUse_other w heap e.n q hq

theorem boolExpr_copy_shares_node_witness :
    (BoolExpr.copy 32
        [{ use := 1, t := BoolExpr.NodeType.NT_VAR, l := none, r := none },
         { use := 1, t := BoolExpr.NodeType.NT_NOT, l := some 0, r := none }]
        { n := 1 }).2[1]?
      = some { use := 2, t := BoolExpr.NodeType.NT_NOT, l := some 0, r := none } ∧
    (BoolExpr.copy 32
        [{ use := 1, t := BoolExpr.NodeType.NT_VAR, l := none, r := none },
         { use := 1, t := BoolExpr.NodeType.NT_NOT, l := some 0, r := none }]
        { n := 1 }).2[0]?
      = some { use := 1, t := BoolExpr.NodeType.NT_VAR, l := none, r := none } :=
  ⟨((boolExpr_copy_shares_node 32
      [{ use := 1, t := BoolExpr.NodeType.NT_VAR, l := none, r := none },
       { use := 1, t := BoolExpr.NodeType.NT_NOT, l := some 0, r := none }]
      { n := 1 } { use := 1, t := BoolExpr.NodeType.NT_NOT, l := some 0, r := none }
      rfl).2.2.1 (by decide)).1,
   (boolExpr_copy_shares_node 32
      [{ use := 1, t := BoolExpr.NodeType.NT_VAR, l := none, r := none },
       { use := 1, t := BoolExpr.NodeType.NT_NOT, l := some 0, r := none }]
      { n := 1 } { use := 1, t := BoolExpr.NodeType.NT_NOT, l := some 0, r := none }
      rfl).2.2.2.2.2.2.1 0 (by decide)⟩

end Gecode
